import Mathlib

/-!
Verification of the search-session streaming state machine and the assistant
editor's validation/submission logic of the danswer web front-end.

The embedded code comes from:
* `web/src/app/chat/sessionSidebar/ChatSessionDisplay.tsx` (the `SearchSection`
  component: streaming update callbacks, the phase tracker, quote
  deduplication, cancellation-token handoff in `onSearch`);
* `web/src/app/admin/assistants/AssistantEditor.tsx` (the Yup validation
  schema's custom prompt test and the `num_chunks` payload shaping in
  `onSubmit`).

JavaScript numbers appearing here are integer-valued millisecond timestamps
and counts, embedded as `Nat`/`Int`.  `Math.ceil(a / b) * b` on non-negative
integers `a`, positive `b`, is embedded as `((a + (b - 1)) / b) * b` over `Nat`.
-/

set_option autoImplicit false

namespace Danswer

/-- The `searchState` union type of `SearchSection`:
`"input" | "searching" | "reading" | "analyzing" | "summarizing" |
"generating" | "citing"`. -/
inductive SearchState where
  | input
  | searching
  | reading
  | analyzing
  | summarizing
  | generating
  | citing
deriving DecidableEq, Repr

/-- Position of a phase in the enumerated order of the `searchState` union. -/
def phaseRank : SearchState → Nat
  | .input => 0
  | .searching => 1
  | .reading => 2
  | .analyzing => 3
  | .summarizing => 4
  | .generating => 5
  | .citing => 6

/-- The guarded transition function of `SearchSection`:
```
const newSearchState = (currentSearchState, newSearchState) => {
  if (currentSearchState != "input") { return newSearchState; }
  return "input";
};
```
(The source names the second parameter `newSearchState` as well; it is the
target phase.) -/
def newSearchState (currentSearchState target : SearchState) : SearchState :=
  if currentSearchState ≠ SearchState.input then target else .input

/-- `resetInput(finalized?)`'s effect on `searchState`:
`setSearchState(finalized ? "input" : "searching")`. -/
def resetInputPhase (finalized : Bool) : SearchState :=
  if finalized then .input else .searching

/-- A phase transition scheduled with `setTimeout`: the absolute time (ms) at
which the timer fires and the target phase passed to `newSearchState`. -/
structure ScheduledTransition where
  fireTime : Nat
  target : SearchState
deriving DecidableEq, Repr

/-- `Math.ceil(elapsedTime / 1500) * 1500` from `updateCurrentAnswer`,
on natural-number milliseconds. -/
def nextInterval (elapsedTime : Nat) : Nat :=
  ((elapsedTime + 1499) / 1500) * 1500

/-- The timer side of `updateCurrentAnswer`: when `analyzeStartTime` is truthy
(non-zero), it computes `elapsedTime = Date.now() - analyzeStartTime` and
schedules `newSearchState(_, "generating")` after `nextInterval - elapsedTime`
milliseconds.  The result is the absolute fire time and target of that timer,
or `none` when `analyzeStartTime` is `0` (falsy) and no timer is set. -/
def updateCurrentAnswerSchedule (now analyzeStartTime : Nat) :
    Option ScheduledTransition :=
  if analyzeStartTime = 0 then none
  else
    let elapsedTime := now - analyzeStartTime
    some ⟨now + (nextInterval elapsedTime - elapsedTime), .generating⟩

theorem le_nextInterval (e : Nat) : e ≤ nextInterval e := by
  unfold nextInterval
  omega

/-- C1: while an analysis start timestamp is recorded (non-zero), an
answer-token update schedules the transition to "generating" at time
`analyzeStartTime + ceil(elapsed / 1500) * 1500`, the next 1.5 s boundary
of the elapsed time since analysis start. -/
theorem updateCurrentAnswer_schedules_generating_at_boundary
    (now analyzeStartTime : Nat)
    (hne : analyzeStartTime ≠ 0) (hle : analyzeStartTime ≤ now) :
    updateCurrentAnswerSchedule now analyzeStartTime =
      some ⟨analyzeStartTime + nextInterval (now - analyzeStartTime),
            .generating⟩ := by
  have h := le_nextInterval (now - analyzeStartTime)
  simp only [updateCurrentAnswerSchedule, hne, if_false]
  refine congrArg some ?_
  refine congrArg (fun t => ScheduledTransition.mk t .generating) ?_
  omega

/-- C1 witness: the spec's scenario — analysis start at t = 4500 ms, answer
token at t = 5000 ms (500 ms into analysis) — schedules "generating" at
t = 6000 ms. -/
theorem updateCurrentAnswer_schedules_generating_at_boundary_witness :
    updateCurrentAnswerSchedule 5000 4500 =
      some ⟨6000, .generating⟩ := by
  have h := updateCurrentAnswer_schedules_generating_at_boundary 5000 4500
    (by decide) (by decide)
  simpa [nextInterval] using h

/-- The timers set by `updateDocs` when `agentic` is true:
```
setTimeout(() => setSearchState(s => newSearchState(s, "reading")), 1500);
setTimeout(() => { setAnalyzeStartTime(Date.now());
                   setSearchState(s => { ... newSearchState(s, "analyzing") ... }); }, 4500);
```
expressed as absolute fire times relative to `now`, the arrival time of the
documents event.  When `agentic` is false no timers are set. -/
def updateDocsSchedules (agentic : Bool) (now : Nat) : List ScheduledTransition :=
  if agentic then [⟨now + 1500, .reading⟩, ⟨now + 4500, .analyzing⟩] else []

/-- The synchronous effect of `updateDocs` on `searchState`: after merging the
documents it runs `if (disabledAgentic) setSearchState("input")` and then
`if (documents.length == 0) setSearchState("input")`. -/
def updateDocsImmediatePhase (disabledAgentic : Bool) (numDocs : Nat)
    (s : SearchState) : SearchState :=
  let s1 := if disabledAgentic then .input else s
  if numDocs = 0 then .input else s1

/-- What the `analyzing` timer of `updateDocs` does when it fires at time
`fireNow`: it records `analyzeStartTime := Date.now()` (unconditionally, and a
second time when the guarded transition takes effect) and applies
`newSearchState(_, "analyzing")`.  Result: (new phase, new analyzeStartTime). -/
def analyzingTimerFire (fireNow : Nat) (s : SearchState) : SearchState × Nat :=
  (newSearchState s .analyzing, fireNow)

/-- Applying a list of scheduled transitions, in order, through the guarded
transition function. -/
def runScheduled (s : SearchState) (l : List ScheduledTransition) : SearchState :=
  l.foldl (fun ph tr => newSearchState ph tr.target) s

/-- C4: an empty documents update with narration enabled immediately forces the
phase to "input", and the "reading"/"analyzing" transitions the same event
scheduled never take effect, because the guarded transition function leaves an
"input" phase unchanged. -/
theorem updateDocs_empty_agentic_input
    (disabledAgentic : Bool) (s : SearchState) (now : Nat) :
    updateDocsImmediatePhase disabledAgentic 0 s = .input ∧
    (∀ target, newSearchState .input target = .input) ∧
    runScheduled (updateDocsImmediatePhase disabledAgentic 0 s)
      (updateDocsSchedules true now) = .input := by
  refine ⟨rfl, fun target => rfl, ?_⟩
  simp [updateDocsImmediatePhase, updateDocsSchedules, runScheduled,
    newSearchState]

/-- C5 counterexample: the claim says "analyzing" is scheduled 4.5 s from query
start; with query start at t = 0 and the documents event arriving at
t = 1000 ms, the code schedules "analyzing" at t = 5500 ms, not at
t = 0 + 4500 ms. -/
theorem updateDocs_analyzing_not_from_query_start :
    updateDocsSchedules true 1000 =
      [⟨2500, .reading⟩, ⟨5500, .analyzing⟩] ∧
    (5500 : Nat) ≠ 0 + 4500 := by
  constructor
  · rfl
  · decide

/-- C5 (amended): in agentic mode a non-empty documents update schedules
"reading" 1.5 s after the update and "analyzing" 4.5 s after the update (which
is 4.5 s from query start exactly when the documents arrive at query start),
and the analysis start timestamp is recorded as the fire time of the
"analyzing" timer — in particular whenever that transition takes effect. -/
theorem updateDocs_agentic_schedules (now : Nat) (s : SearchState) :
    updateDocsSchedules true now =
      [⟨now + 1500, .reading⟩, ⟨now + 4500, .analyzing⟩] ∧
    (analyzingTimerFire (now + 4500) s).2 = now + 4500 ∧
    ((analyzingTimerFire (now + 4500) s).1 = .analyzing →
      (analyzingTimerFire (now + 4500) s).2 = now + 4500) := by
  exact ⟨rfl, rfl, fun _ => rfl⟩

/-- C5 witness: documents arriving at query start t = 0 schedule "reading" at
t = 1500 ms and "analyzing" at t = 4500 ms; from the "searching" phase the
"analyzing" transition takes effect and the analysis start timestamp is the
fire time. -/
theorem updateDocs_agentic_schedules_witness :
    updateDocsSchedules true 0 = [⟨1500, .reading⟩, ⟨4500, .analyzing⟩] ∧
    (analyzingTimerFire 4500 .searching).1 = .analyzing ∧
    (analyzingTimerFire 4500 .searching).2 = 4500 :=
  ⟨(updateDocs_agentic_schedules 0 .searching).1, by decide,
   (updateDocs_agentic_schedules 0 .searching).2.2 (by decide)⟩

/-- `updateQuotes` ends the phase sequence: `setSearchState(_ => "input")`. -/
def updateQuotesPhase (_s : SearchState) : SearchState := .input

/-- `updateError` resets the phase via `resetInput(true)`. -/
def updateErrorPhase (_s : SearchState) : SearchState := resetInputPhase true

/-- `updateMessageAndThreadId` ends the phase sequence:
`setSearchState(_ => "input")`. -/
def updateMessageAndThreadIdPhase (_s : SearchState) : SearchState := .input

/-- `updateDocumentRelevance`'s effect on `searchState`:
`if (disabledAgentic) setSearchState("input") else setSearchState("analyzing")`. -/
def updateDocumentRelevancePhase (disabledAgentic : Bool)
    (_s : SearchState) : SearchState :=
  if disabledAgentic then .input else .analyzing

/-- `finishedSearching`'s effect on `searchState`. -/
def finishedSearchingPhase (disabledAgentic : Bool) (s : SearchState) :
    SearchState :=
  if disabledAgentic then .input else s

/-- C8 counterexample: the phase does not monotonically advance, and query
start does not reset it to "input".  A relevance update arriving in narration
mode while the phase is "generating" moves it backward to "analyzing" (not a
reset to "input"), and `resetInput()` at query start sets "searching", not
"input". -/
theorem phase_not_monotone :
    updateDocumentRelevancePhase false .generating = .analyzing ∧
    phaseRank .analyzing < phaseRank .generating ∧
    SearchState.analyzing ≠ SearchState.input ∧
    resetInputPhase false = .searching ∧
    SearchState.searching ≠ SearchState.input := by
  decide

/-- C8 (amended): the phase is set to "searching" at query start and forced to
"input" by the terminal events (stream error, quotes completion, message-id
completion, relevance completion in non-narration mode, empty result set); the
guarded transition function leaves an "input" phase unchanged, so scheduled
timers never revive a terminated query; but within a lifecycle the phase can
move backward: a relevance update in narration mode sets it to "analyzing"
even from "generating". -/
theorem phase_lifecycle
    (s : SearchState) (d : Bool) (now : Nat) :
    resetInputPhase false = .searching ∧
    updateErrorPhase s = .input ∧
    updateQuotesPhase s = .input ∧
    updateMessageAndThreadIdPhase s = .input ∧
    updateDocumentRelevancePhase true s = .input ∧
    updateDocsImmediatePhase d 0 s = .input ∧
    (∀ target, newSearchState .input target = .input) ∧
    runScheduled .input (updateDocsSchedules true now) = .input ∧
    updateDocumentRelevancePhase false .generating = .analyzing := by
  refine ⟨rfl, rfl, rfl, rfl, rfl, rfl, fun target => rfl, ?_, rfl⟩
  simp [runScheduled, updateDocsSchedules, newSearchState]

/-- A quote as used by `SearchSection`: the display logic reads
`quote.document_id`; the remaining payload (text, metadata) is carried
opaquely as `text`. -/
structure Quote where
  document_id : String
  text : String
deriving DecidableEq, Repr

/-- A search result document; only its identity matters to the embedded
logic (the callbacks read `documents.length`). -/
structure SearchDanswerDocument where
  document_id : String
deriving DecidableEq, Repr

/-- The `SearchResponse` record, with the fields `SearchSection` constructs in
`initialSearchResponse`.  Payload types not defined in these sources
(`SearchType`, `FlowType`, `Relevance`, the error payload) are embedded as
`String`; `messageId` and document indices as `Int`. -/
structure SearchResponse where
  answer : Option String
  quotes : Option (List Quote)
  documents : Option (List SearchDanswerDocument)
  suggestedSearchType : Option String
  suggestedFlowType : Option String
  selectedDocIndices : Option (List Int)
  error : Option String
  messageId : Option Int
  additional_relevance : Option String
deriving DecidableEq, Repr

/-- `initialSearchResponse`: every field null / undefined. -/
def initialSearchResponse : SearchResponse :=
  { answer := none, quotes := none, documents := none,
    suggestedSearchType := none, suggestedFlowType := none,
    selectedDocIndices := none, error := none, messageId := none,
    additional_relevance := none }

/-- One per-field streaming update event, one constructor per update callback
of `SearchSection` that merges into `searchResponse`:
`updateCurrentAnswer`, `updateQuotes`, `updateDocs`,
`updateSuggestedSearchType`, `updateSuggestedFlowType`,
`updateSelectedDocIndices`, `updateError`, `updateMessageAndThreadId`,
`updateDocumentRelevance`. -/
inductive UpdateEvent where
  | answer (a : String)
  | quotes (q : List Quote)
  | documents (d : List SearchDanswerDocument)
  | suggestedSearchType (t : String)
  | suggestedFlowType (t : String)
  | selectedDocIndices (l : List Int)
  | error (e : String)
  | messageId (m : Int)
  | relevance (r : String)
deriving DecidableEq, Repr

/-- The `SearchResponse` field an event writes. -/
inductive RField where
  | answer | quotes | documents | suggestedSearchType | suggestedFlowType
  | selectedDocIndices | error | messageId | relevance
deriving DecidableEq, Repr

/-- Which field each update event writes. -/
def fieldOf : UpdateEvent → RField
  | .answer _ => .answer
  | .quotes _ => .quotes
  | .documents _ => .documents
  | .suggestedSearchType _ => .suggestedSearchType
  | .suggestedFlowType _ => .suggestedFlowType
  | .selectedDocIndices _ => .selectedDocIndices
  | .error _ => .error
  | .messageId _ => .messageId
  | .relevance _ => .relevance

/-- The shallow merge each update callback performs:
`setSearchResponse(prev => ({ ...(prev || initialSearchResponse), field }))`.
Each event replaces exactly its own field and keeps the rest. -/
def applyUpdate (r : SearchResponse) : UpdateEvent → SearchResponse
  | .answer a => { r with answer := some a }
  | .quotes q => { r with quotes := some q }
  | .documents d => { r with documents := some d }
  | .suggestedSearchType t => { r with suggestedSearchType := some t }
  | .suggestedFlowType t => { r with suggestedFlowType := some t }
  | .selectedDocIndices l => { r with selectedDocIndices := some l }
  | .error e => { r with error := some e }
  | .messageId m => { r with messageId := some m }
  | .relevance rel => { r with additional_relevance := some rel }

/-- Applying a whole stream of update events, in arrival order. -/
def applyUpdates (r : SearchResponse) (evs : List UpdateEvent) : SearchResponse :=
  evs.foldl applyUpdate r

/-- The last value set for one field by a stream of events: fold the events,
keeping the payload `f` extracts whenever it applies, starting from `dflt`. -/
def lastSet {α : Type} (f : UpdateEvent → Option α) (dflt : Option α) :
    List UpdateEvent → Option α
  | [] => dflt
  | e :: rest =>
      lastSet f (match f e with | some a => some a | none => dflt) rest

def answerPayload : UpdateEvent → Option String
  | .answer a => some a | _ => none

def quotesPayload : UpdateEvent → Option (List Quote)
  | .quotes q => some q | _ => none

def documentsPayload : UpdateEvent → Option (List SearchDanswerDocument)
  | .documents d => some d | _ => none

def suggestedSearchTypePayload : UpdateEvent → Option String
  | .suggestedSearchType t => some t | _ => none

def suggestedFlowTypePayload : UpdateEvent → Option String
  | .suggestedFlowType t => some t | _ => none

def selectedDocIndicesPayload : UpdateEvent → Option (List Int)
  | .selectedDocIndices l => some l | _ => none

def errorPayload : UpdateEvent → Option String
  | .error e => some e | _ => none

def messageIdPayload : UpdateEvent → Option Int
  | .messageId m => some m | _ => none

def relevancePayload : UpdateEvent → Option String
  | .relevance r => some r | _ => none

theorem applyUpdates_fields (r : SearchResponse) (evs : List UpdateEvent) :
    (applyUpdates r evs).answer = lastSet answerPayload r.answer evs ∧
    (applyUpdates r evs).quotes = lastSet quotesPayload r.quotes evs ∧
    (applyUpdates r evs).documents = lastSet documentsPayload r.documents evs ∧
    (applyUpdates r evs).suggestedSearchType
      = lastSet suggestedSearchTypePayload r.suggestedSearchType evs ∧
    (applyUpdates r evs).suggestedFlowType
      = lastSet suggestedFlowTypePayload r.suggestedFlowType evs ∧
    (applyUpdates r evs).selectedDocIndices
      = lastSet selectedDocIndicesPayload r.selectedDocIndices evs ∧
    (applyUpdates r evs).error = lastSet errorPayload r.error evs ∧
    (applyUpdates r evs).messageId = lastSet messageIdPayload r.messageId evs ∧
    (applyUpdates r evs).additional_relevance
      = lastSet relevancePayload r.additional_relevance evs := by
  induction evs generalizing r with
  | nil =>
      simp [applyUpdates, lastSet]
  | cons e rest ih =>
      cases e <;>
        simpa [applyUpdates, lastSet, applyUpdate, answerPayload,
          quotesPayload, documentsPayload, suggestedSearchTypePayload,
          suggestedFlowTypePayload, selectedDocIndicesPayload, errorPayload,
          messageIdPayload, relevancePayload] using ih _

/-- C2: applied to the initial empty response, a stream of per-field update
events leaves each field holding the last value set for it (or null when the
field was never set); each update writes only its own field, so updates to
different fields commute and reapplying an update is idempotent. -/
theorem searchResponse_updates_last_write_per_field :
    (∀ evs : List UpdateEvent,
      (applyUpdates initialSearchResponse evs).answer
        = lastSet answerPayload none evs ∧
      (applyUpdates initialSearchResponse evs).quotes
        = lastSet quotesPayload none evs ∧
      (applyUpdates initialSearchResponse evs).documents
        = lastSet documentsPayload none evs ∧
      (applyUpdates initialSearchResponse evs).suggestedSearchType
        = lastSet suggestedSearchTypePayload none evs ∧
      (applyUpdates initialSearchResponse evs).suggestedFlowType
        = lastSet suggestedFlowTypePayload none evs ∧
      (applyUpdates initialSearchResponse evs).selectedDocIndices
        = lastSet selectedDocIndicesPayload none evs ∧
      (applyUpdates initialSearchResponse evs).error
        = lastSet errorPayload none evs ∧
      (applyUpdates initialSearchResponse evs).messageId
        = lastSet messageIdPayload none evs ∧
      (applyUpdates initialSearchResponse evs).additional_relevance
        = lastSet relevancePayload none evs) ∧
    (∀ (r : SearchResponse) (e1 e2 : UpdateEvent), fieldOf e1 ≠ fieldOf e2 →
      applyUpdate (applyUpdate r e1) e2 = applyUpdate (applyUpdate r e2) e1) ∧
    (∀ (r : SearchResponse) (e : UpdateEvent),
      applyUpdate (applyUpdate r e) e = applyUpdate r e) := by
  refine ⟨fun evs => applyUpdates_fields initialSearchResponse evs, ?_, ?_⟩
  · intro r e1 e2 h
    cases e1 <;> cases e2 <;> first
      | rfl
      | exact absurd rfl h
  · intro r e
    cases e <;> rfl

/-- C2 witness: at a concrete pair of distinct-field updates the commutation
hypothesis holds and the two application orders agree. -/
theorem searchResponse_updates_last_write_per_field_witness :
    fieldOf (UpdateEvent.answer "x") ≠ fieldOf (UpdateEvent.error "y") ∧
    applyUpdate (applyUpdate initialSearchResponse (UpdateEvent.answer "x"))
        (UpdateEvent.error "y")
      = applyUpdate (applyUpdate initialSearchResponse (UpdateEvent.error "y"))
        (UpdateEvent.answer "x") :=
  ⟨by decide,
   searchResponse_updates_last_write_per_field.2.1 initialSearchResponse
     (UpdateEvent.answer "x") (UpdateEvent.error "y") (by decide)⟩

/-- C7: an error event merges the error payload into the response's `error`
field, leaves every other field of the response unchanged, and `resetInput(true)`
immediately returns the phase to "input". -/
theorem updateError_sets_error_resets_phase
    (r : SearchResponse) (e : String) (s : SearchState) :
    (applyUpdate r (.error e)).error = some e ∧
    (applyUpdate r (.error e)).answer = r.answer ∧
    (applyUpdate r (.error e)).quotes = r.quotes ∧
    (applyUpdate r (.error e)).documents = r.documents ∧
    (applyUpdate r (.error e)).suggestedSearchType = r.suggestedSearchType ∧
    (applyUpdate r (.error e)).suggestedFlowType = r.suggestedFlowType ∧
    (applyUpdate r (.error e)).selectedDocIndices = r.selectedDocIndices ∧
    (applyUpdate r (.error e)).messageId = r.messageId ∧
    (applyUpdate r (.error e)).additional_relevance = r.additional_relevance ∧
    updateErrorPhase s = .input :=
  ⟨rfl, rfl, rfl, rfl, rfl, rfl, rfl, rfl, rfl, rfl⟩

/-- The quote deduplication of `SearchSection`, with its `seen` set of
document ids carried as a list:
```
const dedupedQuotes: Quote[] = [];
const seen = new Set<string>();
quotes.forEach((quote) => {
  if (!seen.has(quote.document_id)) {
    dedupedQuotes.push(quote);
    seen.add(quote.document_id);
  }
});
``` -/
def dedupedQuotesAux (seen : List String) : List Quote → List Quote
  | [] => []
  | q :: rest =>
      if q.document_id ∈ seen then dedupedQuotesAux seen rest
      else q :: dedupedQuotesAux (q.document_id :: seen) rest

def dedupedQuotes (quotes : List Quote) : List Quote :=
  dedupedQuotesAux [] quotes

/-- The spec's description of deduplication: keep exactly the first occurrence
of each document id, preserving first-seen order — the head is kept and later
quotes with the same id are discarded. -/
def firstOccurrenceDedup : List Quote → List Quote
  | [] => []
  | q :: rest =>
      q :: firstOccurrenceDedup
        (rest.filter (fun r => r.document_id ≠ q.document_id))
termination_by l => l.length
decreasing_by
  simpa using Nat.lt_succ_of_le (List.length_filter_le _ rest)

theorem firstOccurrenceDedup_cons (q : Quote) (rest : List Quote) :
    firstOccurrenceDedup (q :: rest)
      = q :: firstOccurrenceDedup
          (rest.filter (fun r => r.document_id ≠ q.document_id)) := by
  rw [firstOccurrenceDedup.eq_def]

theorem dedupedQuotesAux_eq_firstOccurrenceDedup
    (l : List Quote) (seen : List String) :
    dedupedQuotesAux seen l =
      firstOccurrenceDedup (l.filter (fun q => q.document_id ∉ seen)) := by
  induction l generalizing seen with
  | nil => simp [dedupedQuotesAux, firstOccurrenceDedup]
  | cons q rest ih =>
      by_cases h : q.document_id ∈ seen
      · rw [dedupedQuotesAux, if_pos h, List.filter_cons]
        simp only [h, not_true_eq_false, decide_False, if_false]
        exact ih seen
      · rw [dedupedQuotesAux, if_neg h, List.filter_cons]
        simp only [h, not_false_eq_true, decide_True, if_true]
        rw [firstOccurrenceDedup_cons]
        rw [ih (q.document_id :: seen), List.filter_filter]
        refine congrArg (fun t => q :: firstOccurrenceDedup t) ?_
        refine List.filter_congr ?_
        intro x _
        simp [List.mem_cons, and_comm, eq_comm]

/-- C6: the displayed quote sequence keeps exactly the first occurrence of
each document id in first-seen order, and the input
`[{id:"a"}, {id:"b"}, {id:"a"}]` dedupes to exactly `[{id:"a"}, {id:"b"}]`. -/
theorem dedupedQuotes_first_occurrence (quotes : List Quote) :
    dedupedQuotes quotes = firstOccurrenceDedup quotes ∧
    dedupedQuotes [⟨"a", "t1"⟩, ⟨"b", "t2"⟩, ⟨"a", "t3"⟩]
      = [⟨"a", "t1"⟩, ⟨"b", "t2"⟩] := by
  constructor
  · have h := dedupedQuotesAux_eq_firstOccurrenceDedup quotes []
    simpa [dedupedQuotes] using h
  · rfl

/-- Modelled from the spec: `CancellationToken` and `cancellable` live in
`lib/search/cancellable`, which is not among the sources; the spec describes
the token as owning a boolean "cancelled" flag that the streamed request
checks before each dispatched update, suppressing updates after cancellation.
Tokens are identified by allocation index; `flags` records each allocated
token's cancelled flag, and `current` is the `lastSearchCancellationToken`
ref of `SearchSection` (`none` before the first query). -/
structure TokenStore where
  flags : List Bool
  current : Option Nat
deriving DecidableEq, Repr

/-- `token.cancel()`: set the token's cancelled flag. -/
def cancelToken (ts : TokenStore) (i : Nat) : TokenStore :=
  { ts with flags := ts.flags.set i true }

/-- A token `i` counts as cancelled when its flag is set; a token that was
never allocated never guards a live callback, so it defaults to cancelled. -/
def isCancelled (ts : TokenStore) (i : Nat) : Bool :=
  ts.flags.getD i true

/-- The token handoff at the top of `onSearch`:
```
if (lastSearchCancellationToken.current) {
  lastSearchCancellationToken.current.cancel();
}
lastSearchCancellationToken.current = new CancellationToken();
``` -/
def onSearchTokenStep (ts : TokenStore) : TokenStore :=
  let ts1 := match ts.current with
    | some i => cancelToken ts i
    | none => ts
  { flags := ts1.flags ++ [false], current := some ts1.flags.length }

/-- Modelled from the spec: dispatching a stream event through a
`cancellable`-wrapped callback runs the handler only when the bound token is
not cancelled at dispatch time; otherwise the state is untouched. -/
def dispatch {σ : Type} (ts : TokenStore) (tok : Nat) (handler : σ → σ)
    (s : σ) : σ :=
  if isCancelled ts tok then s else handler s

/-- The token-related steps that can occur between a cancellation and a later
dispatch: further explicit cancellations and new query submissions. -/
inductive TokenStep where
  | cancel (i : Nat)
  | newSearch
deriving DecidableEq, Repr

def applyTokenStep (ts : TokenStore) : TokenStep → TokenStore
  | .cancel i => cancelToken ts i
  | .newSearch => onSearchTokenStep ts

def applyTokenSteps (ts : TokenStore) (steps : List TokenStep) : TokenStore :=
  steps.foldl applyTokenStep ts

theorem getD_set_true (l : List Bool) (i : Nat) :
    (l.set i true).getD i true = true := by
  induction l generalizing i with
  | nil => simp
  | cons b rest ih =>
      cases i with
      | zero => simp [List.set, List.getD]
      | succ n => simpa [List.set, List.getD] using ih n

theorem getD_set_of_ne (l : List Bool) (i j : Nat) (b d : Bool) (h : i ≠ j) :
    (l.set j b).getD i d = l.getD i d := by
  induction l generalizing i j with
  | nil => simp
  | cons x rest ih =>
      cases j with
      | zero =>
          cases i with
          | zero => exact absurd rfl h
          | succ n => simp [List.set, List.getD]
      | succ m =>
          cases i with
          | zero => simp [List.set, List.getD]
          | succ n =>
              simpa [List.set, List.getD] using ih n m (by omega)

theorem getD_append_lt (l l' : List Bool) (i : Nat) (d : Bool)
    (h : i < l.length) : (l ++ l').getD i d = l.getD i d := by
  induction l generalizing i with
  | nil => simp at h
  | cons x rest ih =>
      cases i with
      | zero => simp [List.getD]
      | succ n =>
          simp only [List.length_cons, Nat.succ_lt_succ_iff] at h
          simpa [List.getD] using ih n h

theorem getD_append_self (l : List Bool) (x d : Bool) :
    (l ++ [x]).getD l.length d = x := by
  induction l with
  | nil => simp [List.getD]
  | cons y rest ih => simp only [List.cons_append, List.length_cons,
      List.getD_cons_succ, ih]

/-- An allocated token stays allocated and, once cancelled, stays cancelled
across any later token step. -/
theorem cancelled_preserved (ts : TokenStore) (i : Nat) (st : TokenStep)
    (hlt : i < ts.flags.length) (hc : isCancelled ts i = true) :
    i < (applyTokenStep ts st).flags.length ∧
    isCancelled (applyTokenStep ts st) i = true := by
  cases st with
  | cancel j =>
      refine ⟨by simpa [applyTokenStep, cancelToken] using hlt, ?_⟩
      show (ts.flags.set j true).getD i true = true
      by_cases hij : i = j
      · subst hij
        exact getD_set_true ts.flags i
      · rw [getD_set_of_ne ts.flags i j true true hij]
        exact hc
  | newSearch =>
      cases hcur : ts.current with
      | none =>
          refine ⟨?_, ?_⟩
          · simp only [applyTokenStep, onSearchTokenStep, hcur]
            simp only [List.length_append, List.length_cons, List.length_nil]
            omega
          · simp only [applyTokenStep, onSearchTokenStep, hcur]
            show (ts.flags ++ [false]).getD i true = true
            rw [getD_append_lt ts.flags [false] i true hlt]
            exact hc
      | some j =>
          have hlt' : i < (ts.flags.set j true).length := by
            simpa using hlt
          refine ⟨?_, ?_⟩
          · simp only [applyTokenStep, onSearchTokenStep, hcur]
            simp only [List.length_append, List.length_cons, List.length_nil]
            simp only [cancelToken, List.length_set]
            omega
          · simp only [applyTokenStep, onSearchTokenStep, hcur]
            show ((ts.flags.set j true) ++ [false]).getD i true = true
            rw [getD_append_lt _ [false] i true hlt']
            by_cases hij : i = j
            · subst hij
              exact getD_set_true ts.flags i
            · rw [getD_set_of_ne ts.flags i j true true hij]
              exact hc

theorem cancelled_preserved_steps (ts : TokenStore) (i : Nat)
    (steps : List TokenStep)
    (hlt : i < ts.flags.length) (hc : isCancelled ts i = true) :
    isCancelled (applyTokenSteps ts steps) i = true := by
  induction steps generalizing ts with
  | nil => simpa [applyTokenSteps] using hc
  | cons st rest ih =>
      have h := cancelled_preserved ts i st hlt hc
      simpa [applyTokenSteps] using ih (applyTokenStep ts st) h.1 h.2

/-- C3: cancelling an allocated token before an event is dispatched guarantees
the bound callback never executes, whatever token steps happen in between; and
`onSearch` cancels the previous token (when one exists) and installs a fresh,
non-cancelled token. -/
theorem cancel_before_dispatch_suppresses {σ : Type} (ts : TokenStore)
    (i : Nat) (steps : List TokenStep) (handler : σ → σ) (s : σ)
    (hlt : i < ts.flags.length) :
    dispatch (applyTokenSteps (cancelToken ts i) steps) i handler s = s ∧
    (∀ j, ts.current = some j → j < ts.flags.length →
      isCancelled (onSearchTokenStep ts) j = true) ∧
    (onSearchTokenStep ts).current = some ts.flags.length ∧
    isCancelled (onSearchTokenStep ts) ts.flags.length = false := by
  refine ⟨?_, ?_, ?_, ?_⟩
  · have hlt' : i < (cancelToken ts i).flags.length := by
      simpa [cancelToken] using hlt
    have hc : isCancelled (cancelToken ts i) i = true := by
      simpa [cancelToken, isCancelled] using getD_set_true ts.flags i
    have h := cancelled_preserved_steps (cancelToken ts i) i steps hlt' hc
    simp [dispatch, h]
  · intro j hj hjlt
    have hjlt' : j < (ts.flags.set j true).length := by
      simpa using hjlt
    simp only [onSearchTokenStep, hj]
    show ((ts.flags.set j true) ++ [false]).getD j true = true
    rw [getD_append_lt _ [false] j true hjlt']
    exact getD_set_true ts.flags j
  · cases hcur : ts.current with
    | none => simp [onSearchTokenStep, hcur]
    | some j => simp [onSearchTokenStep, hcur, cancelToken]
  · cases hcur : ts.current with
    | none =>
        simp only [onSearchTokenStep, hcur]
        show (ts.flags ++ [false]).getD ts.flags.length true = false
        exact getD_append_self ts.flags false true
    | some j =>
        simp only [onSearchTokenStep, hcur]
        show ((ts.flags.set j true) ++ [false]).getD ts.flags.length true
          = false
        have hlen : ts.flags.length = (ts.flags.set j true).length := by
          simp
        rw [hlen]
        exact getD_append_self (ts.flags.set j true) false true

/-- C3 witness: one live token (index 0), cancelled, then a new query starts;
the stale stream's callback leaves the state untouched, and `onSearch` has
cancelled the superseded token and installed fresh non-cancelled token 1. -/
theorem cancel_before_dispatch_suppresses_witness :
    0 < ([false] : List Bool).length ∧
    dispatch (applyTokenSteps (cancelToken ⟨[false], some 0⟩ 0) [.newSearch])
      0 (fun n : Nat => n + 1) 7 = 7 ∧
    isCancelled (onSearchTokenStep ⟨[false], some 0⟩) 0 = true ∧
    isCancelled (onSearchTokenStep ⟨[false], some 0⟩) 1 = false :=
  ⟨by decide,
   (cancel_before_dispatch_suppresses ⟨[false], some 0⟩ 0 [.newSearch]
      (fun n : Nat => n + 1) 7 (by decide)).1,
   (cancel_before_dispatch_suppresses ⟨[false], some 0⟩ 0 [.newSearch]
      (fun n : Nat => n + 1) 7 (by decide)).2.1 0 rfl (by decide),
   (cancel_before_dispatch_suppresses ⟨[false], some 0⟩ 0 [.newSearch]
      (fun n : Nat => n + 1) 7 (by decide)).2.2.2⟩

/-- A Yup validation error: the field path it is attached to and its
message. -/
structure ValidationError where
  path : String
  message : String
deriving DecidableEq, Repr

/-- JavaScript `String.prototype.trim`: remove whitespace from both ends,
expressed on the string's character list. -/
def jsTrim (s : String) : String :=
  String.mk
    (((s.data.dropWhile Char.isWhitespace).reverse.dropWhile
        Char.isWhitespace).reverse)

/-- `values.x && values.x.trim().length > 0` from the
`system-prompt-or-task-prompt` test of the assistant editor's validation
schema (an empty string is falsy, and its trim has length 0 anyway). -/
def promptSpecified (s : String) : Bool :=
  0 < (jsTrim s).length

/-- The custom `.test("system-prompt-or-task-prompt", ...)` of the assistant
editor's validation schema: passes (`none`) when either prompt is specified,
otherwise produces the single error
`{ path: "system_prompt", message: "Must provide either System Prompt or
Additional Instructions" }`. -/
def systemPromptOrTaskPromptTest (system_prompt task_prompt : String) :
    Option ValidationError :=
  if promptSpecified system_prompt || promptSpecified task_prompt then none
  else some ⟨"system_prompt",
    "Must provide either System Prompt or Additional Instructions"⟩

/-- The validation errors of the assistant editor schema for the fields the
claims exercise: `name`/`description` are `required`, and the custom prompt
test.  Yup's `required()` on a string fails exactly on the empty string. -/
def validateAssistantForm (name description system_prompt task_prompt :
    String) : List ValidationError :=
  (if name = "" then
    [⟨"name", "Must provide a name for the Assistant"⟩] else []) ++
  (if description = "" then
    [⟨"description", "Must provide a description for the Assistant"⟩]
   else []) ++
  (match systemPromptOrTaskPromptTest system_prompt task_prompt with
   | some e => [e]
   | none => [])

/-- Formik submission gate: `onSubmit` (and with it any API call) runs only
when the validation schema produces no error. -/
def assistantSubmit (name description system_prompt task_prompt : String) :
    Except (List ValidationError) Unit :=
  match validateAssistantForm name description system_prompt task_prompt with
  | [] => .ok ()
  | errs => .error errs

/-- C9: with the other required fields filled, submitting with both prompts
empty or whitespace-only is rejected before any API call with exactly one
validation error, attached to `system_prompt`, reading "Must provide either
System Prompt or Additional Instructions"; a non-empty value for either
prompt passes the check. -/
theorem assistant_prompt_validation
    (name description system_prompt task_prompt : String)
    (hname : name ≠ "") (hdesc : description ≠ "") :
    (jsTrim system_prompt = "" → jsTrim task_prompt = "" →
      assistantSubmit name description system_prompt task_prompt =
        .error [⟨"system_prompt",
          "Must provide either System Prompt or Additional Instructions"⟩]) ∧
    (0 < (jsTrim system_prompt).length ∨ 0 < (jsTrim task_prompt).length →
      systemPromptOrTaskPromptTest system_prompt task_prompt = none ∧
      assistantSubmit name description system_prompt task_prompt = .ok ()) := by
  constructor
  · intro hs ht
    have hs' : promptSpecified system_prompt = false := by
      simp [promptSpecified, hs]
    have ht' : promptSpecified task_prompt = false := by
      simp [promptSpecified, ht]
    simp [assistantSubmit, validateAssistantForm, hname, hdesc,
      systemPromptOrTaskPromptTest, hs', ht']
  · intro h
    have hor : (promptSpecified system_prompt
        || promptSpecified task_prompt) = true := by
      rcases h with h | h
      · simp [promptSpecified, h]
      · simp [promptSpecified, h]
    constructor
    · simp [systemPromptOrTaskPromptTest, hor]
    · simp [assistantSubmit, validateAssistantForm, hname, hdesc,
        systemPromptOrTaskPromptTest, hor]

/-- C9 witness: name and description filled, system prompt whitespace-only and
task prompt empty — rejected with the single system-prompt error; and with a
non-empty system prompt the check passes. -/
theorem assistant_prompt_validation_witness :
    ("My Assistant" : String) ≠ "" ∧ ("desc" : String) ≠ "" ∧
    assistantSubmit "My Assistant" "desc" "  " "" =
      .error [⟨"system_prompt",
        "Must provide either System Prompt or Additional Instructions"⟩] ∧
    systemPromptOrTaskPromptTest "be helpful" "" = none :=
  ⟨by decide, by decide,
   (assistant_prompt_validation "My Assistant" "desc" "  " ""
      (by decide) (by decide)).1 (by decide) (by decide),
   ((assistant_prompt_validation "My Assistant" "desc" "be helpful" ""
      (by decide) (by decide)).2 (by exact Or.inl (by decide))).1⟩

/-- The reachable states of `values.num_chunks` at submit time: `null` from
`initialValues` (`existingPersona?.num_chunks ?? null`), a number carried over
from an existing persona, or a string — the field's `onChange` stores the raw
`e.target.value` via `setFieldValue("num_chunks", value)` whenever it is `""`
or matches `/^[0-9]+$/`, and Formik passes it to `onSubmit` uncast. -/
inductive NumChunksValue where
  | null
  | num (n : Int)
  | str (s : String)
deriving DecidableEq, Repr

/-- The `num_chunks` actually placed in the create/update payload: a number
or a raw string, exactly as JavaScript leaves it. -/
inductive NumChunksPayload where
  | num (n : Int)
  | str (s : String)
deriving DecidableEq, Repr

/-- The guard in the `num_chunks` field's `onChange`:
`value === "" || /^[0-9]+$/.test(value)`. -/
def numChunksFieldAccepts (s : String) : Bool :=
  s = "" || (s ≠ "" && s.data.all Char.isDigit)

/-- JavaScript `values.num_chunks || 10`: the falsy values `null`, `0` and
`""` yield 10; every other value — including a non-empty digit string such as
`"0"`, which is truthy — passes through unchanged. -/
def jsOrTen : NumChunksValue → NumChunksPayload
  | .null => .num 10
  | .num n => if n = 0 then .num 10 else .num n
  | .str s => if s = "" then .num 10 else .str s

/-- `const numChunks = searchToolEnabled ? values.num_chunks || 10 : 0;`
from the assistant editor's `onSubmit`. -/
def numChunksPayload (searchToolEnabled : Bool) (num_chunks : NumChunksValue) :
    NumChunksPayload :=
  if searchToolEnabled then jsOrTen num_chunks else .num 0

/-- Whether a submitted `num_chunks` payload denotes a retrieval chunk count
of zero: the number 0, or a non-empty digit string all of whose digits are
`'0'`. -/
def payloadIsZeroChunks : NumChunksPayload → Bool
  | .num n => n = 0
  | .str s => s ≠ "" && s.data.all (· = '0')

/-- C10 counterexample: the digit string "0" is storable by the field's
`onChange` guard, is truthy, and with the search tool enabled passes through
`|| 10` uncoerced — a retrieval chunk count of zero is submitted while the
search tool is enabled, and it is not the coerced 10. -/
theorem numChunks_zero_string_reachable :
    numChunksFieldAccepts "0" = true ∧
    numChunksPayload true (.str "0") = .str "0" ∧
    payloadIsZeroChunks (numChunksPayload true (.str "0")) = true ∧
    numChunksPayload true (.str "0") ≠ .num 10 := by
  decide

/-- C10 (amended): the submitted `num_chunks` is total and never null: with
the search tool disabled it is exactly 0, and with the search tool enabled the
falsy form values — null, numeric 0, and the empty string — are coerced to 10;
but a stored digit string is truthy and passes through uncoerced, so typing
"0" submits a retrieval chunk count of zero while the search tool is
enabled. -/
theorem numChunks_payload_shaping :
    (∀ v, numChunksPayload false v = .num 0) ∧
    numChunksPayload true .null = .num 10 ∧
    numChunksPayload true (.num 0) = .num 10 ∧
    numChunksPayload true (.str "") = .num 10 ∧
    (∀ n : Int, n ≠ 0 → numChunksPayload true (.num n) = .num n) ∧
    (∀ s : String, s ≠ "" → numChunksPayload true (.str s) = .str s) := by
  refine ⟨fun v => rfl, rfl, by decide, by decide, ?_, ?_⟩
  · intro n hn
    simp [numChunksPayload, jsOrTen, hn]
  · intro s hs
    simp [numChunksPayload, jsOrTen, hs]

/-- C10 witness: a persona-carried 5 and the typed digit string "7" pass
through unchanged. -/
theorem numChunks_payload_shaping_witness :
    (5 : Int) ≠ 0 ∧ ("7" : String) ≠ "" ∧
    numChunksPayload true (.num 5) = .num 5 ∧
    numChunksPayload true (.str "7") = .str "7" :=
  ⟨by decide, by decide,
   numChunks_payload_shaping.2.2.2.2.1 5 (by decide),
   numChunks_payload_shaping.2.2.2.2.2 "7" (by decide)⟩

end Danswer
